import Mathlib

/-!
Shallow embedding of `cotacao_moedas_jan_25.py`, a single-page currency
dashboard: a USD/BRL rate snapshot fetcher, a multi-currency series fetcher
with a chart display, and a parallel news-headline fetcher with translation.

External collaborators (the market-data provider `yf.download`, the HTTP
fetch + HTML parse layer, and the translation service) are modelled as
explicit inputs: the provider returns a time-indexed table or an empty one,
the page fetch either fails with an error message or yields a selector
lookup function, and the translator either fails or returns a string.
Prices are modelled as rationals.
-/

set_option autoImplicit false

namespace Cotacao

/-! ## Rate Snapshot Fetcher (`get_dollar_data_real_time`, lines 13-28) -/

/--
The market-data provider's response to one `yf.download` call: a
time-indexed table.  `close` is `some closes` when the table has a
`Close` column (`closes` lists its values, oldest row first) and `none`
when it lacks one.  Since every column of a pandas table has the same
number of rows, a table with a `Close` column is empty (`data.empty`)
exactly when `closes` is `[]`; per the collaborator interface, provider
failures surface as an empty table, never as a raised exception.
-/
structure ProviderTable where
  close : Option (List ℚ)
deriving DecidableEq

/-- The dictionary returned by `get_dollar_data_real_time` on success. -/
structure RateSnapshot where
  last_close : Option ℚ
  previous_close : Option ℚ
  timestamp : ℤ
deriving DecidableEq

/--
Lines 13-28.  `now` stands for the `datetime.now(...)` capture timestamp
(the Sao Paulo conversion is value-irrelevant to the claims).  Mirrors
`if not data.empty and 'Close' in data.columns:` followed by the two
guarded `iloc[-1]` / `iloc[-2]` reads; `iloc[-k]` is position
`length - k`.
-/
def get_dollar_data_real_time (data : ProviderTable) (now : ℤ) :
    Option RateSnapshot :=
  match data.close with
  | none => none
  | some closes =>
    if closes.isEmpty then none
    else some
      { last_close := if closes.length > 0 then closes[closes.length - 1]? else none
        previous_close := if closes.length > 1 then closes[closes.length - 2]? else none
        timestamp := now }

/-! ## Snapshot display (lines 93-110) -/

/-- The three derived values printed by the variation line (lines 105-108). -/
structure VariationInfo where
  variation : ℚ
  percentage_change : ℚ
  direction : String
deriving DecidableEq

/--
Lines 105-107: `variation = last - prev`,
`percentage_change = (variation / prev) * 100`,
`direction = "↑" if variation > 0 else "↓"`.
-/
def variation_info (last prev : ℚ) : VariationInfo :=
  { variation := last - prev
    percentage_change := (last - prev) / prev * 100
    direction := if last - prev > 0 then "↑" else "↓" }

/--
Lines 104-110: the variation line is computed only under the guard
`dollar_data['previous_close'] is not None`; otherwise the page shows
"Não foi possível calcular a variação." (modelled as `none`).  The code
reads `dollar_data['last_close']` unguarded inside the branch; the
`last_close = none` case would be a `TypeError` in Python and is
unreachable for snapshots produced by `get_dollar_data_real_time`
(see `snapshot_last_close_present`).
-/
def display_variation (s : RateSnapshot) : Option VariationInfo :=
  match s.previous_close with
  | none => none
  | some prev =>
    match s.last_close with
    | none => none
    | some last => some (variation_info last prev)

/-! ## Headline Fetcher (`fetch_headline`, lines 31-62) -/

/--
One invocation's view of the external world.  `page` models the
`requests.get` + `raise_for_status` + `BeautifulSoup` sequence for the
site's URL: an error message when any of those raises, otherwise a
lookup taking a CSS selector to the stripped text of the first matching
element (`select_one` + `get_text(strip=True)`), `none` when no element
matches.  `translate` models `GoogleTranslator(source, target="pt")
.translate`: given the source language and a text, it raises (error
message) or returns the translated text.
-/
structure FetchEnv where
  page : Except String (String → Option String)
  translate : String → String → Except String String

/-- The dictionary `fetch_headline` returns: lines 53-57 or lines 59-62. -/
inductive HeadlineResult where
  | success (site_name : String) (translated_title : String)
      (translated_subtitle : Option String)
  | failure (site_name : String) (error : String)
deriving DecidableEq

/-- Line 42's placeholder for a missing title element. -/
def title_placeholder : String := "Título não encontrado"

/-- Line 42: `title_element.get_text(strip=True) if title_element else "Título não encontrado"`. -/
def title_text_of (select_one : String → Option String) (title_selector : String) : String :=
  match select_one title_selector with
  | some t => t
  | none => title_placeholder

/-- Line 49: `subtitle_element.get_text(strip=True) if subtitle_element else ""`. -/
def subtitle_text_of (select_one : String → Option String) (subtitle_selector : String) : String :=
  match select_one subtitle_selector with
  | some t => t
  | none => ""

/--
Lines 31-62.  The whole body is a `try`/`except` returning the error
dictionary; in the embedding every exception is an `Except.error` from
`env.page` or `env.translate`.  `url` is consumed by the HTTP request,
which `env.page` models.
-/
def fetch_headline (env : FetchEnv) (site_name url title_selector : String)
    (subtitle_selector : Option String) (translate_from : String) : HeadlineResult :=
  match env.page with
  | .error e => .failure site_name e
  | .ok select_one =>
    match env.translate translate_from (title_text_of select_one title_selector) with
    | .error e => .failure site_name e
    | .ok translated_title =>
      match subtitle_selector with
      | none => .success site_name translated_title none
      | some sel =>
        if subtitle_text_of select_one sel = "" then
          .success site_name translated_title none
        else
          match env.translate translate_from (subtitle_text_of select_one sel) with
          | .error e => .failure site_name e
          | .ok translated_subtitle =>
            .success site_name translated_title (some translated_subtitle)

/-- The `site_name` key, present in both result dictionaries. -/
def HeadlineResult.site_name_of : HeadlineResult → String
  | .success n _ _ => n
  | .failure n _ => n

/-! ## Parallel Headline Orchestrator (lines 246-256) -/

/-- One entry of the `sites` list (lines 204-242), with the dictionary
defaults of lines 252-253: `site.get("subtitle_selector")` and
`site.get("translate_from", "en")`. -/
structure SiteDescriptor where
  name : String
  url : String
  title_selector : String
  subtitle_selector : Option String
  translate_from : String

/--
Lines 246-256: `executor.map(lambda site: fetch_headline(...), sites)`
yields one result per site, in the order of `sites`, regardless of the
order in which the pool's workers finish.  `envs i` is the external
world observed by the task launched for `sites[i]` (its own HTTP fetch
and translation calls); tasks share no state, so each result depends
only on its own descriptor and environment.
-/
def run_headlines (envs : ℕ → FetchEnv) (sites : List SiteDescriptor) :
    List HeadlineResult :=
  sites.enum.map fun p =>
    fetch_headline (envs p.1) p.2.name p.2.url p.2.title_selector
      p.2.subtitle_selector p.2.translate_from

/-! ## Series Fetcher (`download_currency_data`, lines 65-76) and chart
display (`display_currency_data`, lines 123-198) -/

/-- A date-indexed closing-price series, oldest first; dates as day numbers. -/
def CloseSeries : Type := List (ℕ × ℚ)

instance : DecidableEq CloseSeries := by
  unfold CloseSeries
  infer_instance

/--
A concatenated table, one `(column label, series)` entry per column, in
column order.  `pd.concat(data, axis=1, keys=columns)` aligns the series
on the union of their date indexes; with the per-column series kept,
that alignment is value-preserving, so the table is modelled by its
labelled columns.
-/
def SeriesTable : Type := List (String × CloseSeries)

instance : DecidableEq SeriesTable := by
  unfold SeriesTable
  infer_instance

/--
Lines 65-76.  `provider t` is the `yf.download(t, ...)['Close']` series
for ticker `t` over the selected range (an empty list when the download
returns an empty table).  The loop keeps, in request order, each ticker
whose table is non-empty, pairing it with its series; with no kept
ticker the result is the empty table `pd.DataFrame()`, i.e. `[]`.
-/
def download_currency_data (provider : String → CloseSeries)
    (tickers : List String) : SeriesTable :=
  tickers.filterMap fun ticker =>
    let currency_data := provider ticker
    if currency_data.isEmpty then none else some (ticker, currency_data)

/--
Pandas column relabelling `df.columns = labels` (line 131): it requires
exactly one label per existing column and raises
`ValueError: Length mismatch` otherwise; on success column `i` is
renamed to `labels[i]`.
-/
def set_dataframe_columns (table : SeriesTable) (labels : List String) :
    Except String SeriesTable :=
  if labels.length = table.length then
    .ok (labels.zip (table.map Prod.snd))
  else
    .error "Length mismatch"

/-- What the chart section of the page ends up showing. -/
inductive DisplayOutcome where
  /-- Line 198: "Por favor, selecione pelo menos uma moeda." -/
  | prompt
  /-- Line 128: "Nenhum dado disponível para o intervalo selecionado." -/
  | no_data
  /-- Line 196: `except` branch, "Erro ao baixar os dados: ..." -/
  | fetch_error (msg : String)
  /-- Lines 131-192: the relabelled table rendered as the Plotly chart. -/
  | shown (table : SeriesTable)
deriving DecidableEq

/-- Lines 79-85: the `ticker_labels` dictionary. -/
def ticker_labels : List (String × String) :=
  [("USDBRL=X", "Real (BRL)"),
   ("USDARS=X", "Peso Argentino (ARS)"),
   ("USDMXN=X", "Peso Mexicano (MXN)"),
   ("USDCNY=X", "Yuan Chinês (CNY)"),
   ("USDINR=X", "Rúpia Indiana (INR)")]

/-- Line 116: `ticker_labels[ticker]`; tickers come from the dictionary's
own key list (line 115), so the lookup never misses. -/
def label_of (ticker : String) : String :=
  ((ticker_labels.lookup ticker).getD "")

/--
Lines 123-198 restricted to the data path.  With a non-empty selection
the `try` block downloads the table, short-circuits to the no-data
message when it is empty, then relabels its columns with
`selected_labels` (line 116: one label per *selected* ticker); a raised
`ValueError` from the relabel is caught by the `except` at line 195 and
shown as a download error.  Otherwise the relabelled table feeds the
chart.
-/
def display_currency_data (provider : String → CloseSeries)
    (selected_tickers : List String) : DisplayOutcome :=
  if selected_tickers.isEmpty then .prompt
  else
    let currency_data := download_currency_data provider selected_tickers
    if currency_data.isEmpty then .no_data
    else
      let selected_labels := selected_tickers.map label_of
      match set_dataframe_columns currency_data selected_labels with
      | .error e => .fetch_error e
      | .ok relabelled => .shown relabelled

/-! ## Theorems: Rate Snapshot Fetcher -/

/--
C3: every invocation of the Rate Snapshot Fetcher turns a provider
failure into the `none` ("unavailable") result and nothing else: the
result is `none` exactly when the provider's table is empty or lacks a
closing-price column, the two shapes a provider error can take under
the collaborator interface, and the fetcher is a total function, so no
exception reaches the caller.
-/
theorem snapshot_unavailable_iff (data : ProviderTable) (now : ℤ) :
    get_dollar_data_real_time data now = none ↔
      (data.close = none ∨ data.close = some []) := by
  obtain ⟨c⟩ := data
  cases c with
  | none => simp [get_dollar_data_real_time]
  | some closes =>
    cases closes with
    | nil => simp [get_dollar_data_real_time]
    | cons a l => simp [get_dollar_data_real_time]

/-- Witness for `snapshot_unavailable_iff`: an empty provider table
yields the unavailable result. -/
theorem snapshot_unavailable_iff_witness :
    get_dollar_data_real_time ⟨some []⟩ 0 = none :=
  (snapshot_unavailable_iff ⟨some []⟩ 0).mpr (Or.inr rfl)

/--
C10: whenever the Rate Snapshot Fetcher returns a snapshot at all, its
`last_close` field is present, so the caller's unguarded numeric
formatting of `last_close` (line 98) cannot fail: a non-empty table
with a closing-price column has at least one closing value.
-/
theorem snapshot_last_close_present (data : ProviderTable) (now : ℤ)
    (s : RateSnapshot) (h : get_dollar_data_real_time data now = some s) :
    s.last_close.isSome = true := by
  obtain ⟨c⟩ := data
  cases c with
  | none => simp [get_dollar_data_real_time] at h
  | some closes =>
    cases closes with
    | nil => simp [get_dollar_data_real_time] at h
    | cons a l =>
      have hlt : (a :: l).length - 1 < (a :: l).length := by simp
      simp [get_dollar_data_real_time, List.getElem?_eq_getElem hlt] at h
      rw [← h]
      simp

/-- Witness for `snapshot_last_close_present` at a one-row table. -/
theorem snapshot_last_close_present_witness :
    (⟨some 5, none, 0⟩ : RateSnapshot).last_close.isSome = true :=
  snapshot_last_close_present ⟨some [5]⟩ 0 ⟨some 5, none, 0⟩ rfl

/--
C5: a provider table whose closing-price column holds exactly one data
point yields a snapshot whose `previous_close` is absent (not zero),
and the variation line — variation and percentage change — is not
computed for it.
-/
theorem single_point_snapshot (data : ProviderTable) (now : ℤ) (c : ℚ)
    (h : data.close = some [c]) :
    get_dollar_data_real_time data now = some ⟨some c, none, now⟩ ∧
      display_variation ⟨some c, none, now⟩ = none := by
  obtain ⟨cl⟩ := data
  cases h
  exact ⟨rfl, rfl⟩

/-- Witness for `single_point_snapshot` at the table `[5]`. -/
theorem single_point_snapshot_witness :
    get_dollar_data_real_time ⟨some [5]⟩ 0 = some ⟨some 5, none, 0⟩ ∧
      display_variation ⟨some 5, none, 0⟩ = none :=
  single_point_snapshot ⟨some [5]⟩ 0 5 rfl

/--
C4: for every provider table with at least 2 closing values, the
snapshot carries the last two of them, and the displayed variation
satisfies `variation = last_close - previous_close`,
`percentage_change = variation / previous_close * 100`, and the
direction is "↑" exactly when the variation is positive.
-/
theorem snapshot_variation_formulas (data : ProviderTable) (now : ℤ)
    (closes : List ℚ) (hc : data.close = some closes)
    (h2 : 2 ≤ closes.length) :
    ∃ last prev,
      get_dollar_data_real_time data now = some ⟨some last, some prev, now⟩ ∧
      last = closes[closes.length - 1] ∧ prev = closes[closes.length - 2] ∧
      display_variation ⟨some last, some prev, now⟩ =
        some (variation_info last prev) ∧
      (variation_info last prev).variation = last - prev ∧
      (variation_info last prev).percentage_change =
        (variation_info last prev).variation / prev * 100 ∧
      ((variation_info last prev).direction = "↑" ↔
        0 < (variation_info last prev).variation) := by
  obtain ⟨cl⟩ := data
  cases hc
  have h0 : closes.length - 1 < closes.length := by omega
  have h1 : closes.length - 2 < closes.length := by omega
  have hne : closes.isEmpty = false := by
    cases closes with
    | nil => simp at h2
    | cons a l => rfl
  refine ⟨closes[closes.length - 1], closes[closes.length - 2], ?_, rfl, rfl,
    rfl, rfl, rfl, ?_⟩
  · have hp0 : 0 < closes.length := by omega
    have hp1 : 1 < closes.length := by omega
    simp [get_dollar_data_real_time, hne, hp0, hp1,
      List.getElem?_eq_getElem h0, List.getElem?_eq_getElem h1]
  · by_cases hlt :
      (0 : ℚ) < closes[closes.length - 1] - closes[closes.length - 2]
    · simp [variation_info, hlt]
    · simp [variation_info, hlt]

/-- Witness for `snapshot_variation_formulas` at the table
`[5, 51/10]` (the spec's 5.00 → 5.10 example). -/
theorem snapshot_variation_formulas_witness :
    (∃ last prev,
      get_dollar_data_real_time ⟨some [5, 51/10]⟩ 0 =
        some ⟨some last, some prev, 0⟩ ∧
      last = [(5 : ℚ), 51/10][1] ∧ prev = [(5 : ℚ), 51/10][0] ∧
      display_variation ⟨some last, some prev, 0⟩ =
        some (variation_info last prev) ∧
      (variation_info last prev).variation = last - prev ∧
      (variation_info last prev).percentage_change =
        (variation_info last prev).variation / prev * 100 ∧
      ((variation_info last prev).direction = "↑" ↔
        0 < (variation_info last prev).variation)) ∧
    (variation_info (51/10) 5).variation = 1/10 ∧
    (variation_info (51/10) 5).percentage_change = 2 ∧
    (variation_info (51/10) 5).direction = "↑" := by
  have hpos : (0 : ℚ) < 51/10 - 5 := by norm_num
  refine ⟨snapshot_variation_formulas ⟨some [5, 51/10]⟩ 0 [5, 51/10] rfl
    (by decide), by norm_num [variation_info], by norm_num [variation_info],
    by simp [variation_info, hpos]⟩

/--
C9 counterexample: a snapshot whose last two closing values are both 5
has variation 0, yet the displayed direction is the down arrow "↓" —
the display has no flat direction, so the claimed value `flat` is never
produced.
-/
theorem zero_variation_not_flat :
    get_dollar_data_real_time ⟨some [5, 5]⟩ 0 = some ⟨some 5, some 5, 0⟩ ∧
    display_variation ⟨some 5, some 5, 0⟩ = some (variation_info 5 5) ∧
    (variation_info 5 5).variation = 0 ∧
    (variation_info 5 5).direction = "↓" ∧
    (variation_info 5 5).direction ≠ "flat" ∧
    (variation_info 5 5).direction ≠ "↑" := by
  have hd : (variation_info 5 5).direction = "↓" := by
    simp [variation_info]
  refine ⟨rfl, rfl, by simp [variation_info], hd, ?_, ?_⟩ <;>
    rw [hd] <;> decide

/--
C9 (amended): for every snapshot with both closing values present and
equal (variation = 0), the displayed direction is the down arrow "↓":
the display distinguishes only "↑" (variation > 0) and "↓" (otherwise)
and has no flat direction.
-/
theorem zero_variation_direction_down (s : RateSnapshot) (v : ℚ)
    (hl : s.last_close = some v) (hp : s.previous_close = some v) :
    display_variation s = some (variation_info v v) ∧
      (variation_info v v).variation = 0 ∧
      (variation_info v v).direction = "↓" := by
  refine ⟨?_, by simp [variation_info], by simp [variation_info]⟩
  unfold display_variation
  rw [hp, hl]

/-- Witness for `zero_variation_direction_down` at the snapshot (5, 5). -/
theorem zero_variation_direction_down_witness :
    display_variation ⟨some 5, some 5, 0⟩ = some (variation_info 5 5) ∧
      (variation_info 5 5).variation = 0 ∧
      (variation_info 5 5).direction = "↓" :=
  zero_variation_direction_down ⟨some 5, some 5, 0⟩ 5 rfl rfl

/-! ## Theorems: Headline Fetcher -/

/-- Both result dictionaries carry the requested `site_name`. -/
theorem fetch_headline_site_name (env : FetchEnv) (n u ts : String)
    (ss : Option String) (tf : String) :
    (fetch_headline env n u ts ss tf).site_name_of = n := by
  unfold fetch_headline
  repeat' first
    | rfl
    | split

/--
C6: a single Headline Fetcher invocation yields exactly one of the two
variants — a Success or a Failure tagged with the requested site name,
never both and never neither — and every exception raised along the
sequence is converted into the Failure variant carrying its message
rather than escaping the (total) call: a fetch/parse error, a title
translation error, and a subtitle translation error each produce the
Failure variant.
-/
theorem headline_exactly_one_variant (env : FetchEnv) (n u ts : String)
    (ss : Option String) (tf : String) :
    ((∃ t st, fetch_headline env n u ts ss tf = .success n t st) ∨
      (∃ e, fetch_headline env n u ts ss tf = .failure n e)) ∧
    ¬((∃ t st, fetch_headline env n u ts ss tf = .success n t st) ∧
      (∃ e, fetch_headline env n u ts ss tf = .failure n e)) ∧
    (∀ e, env.page = .error e →
      fetch_headline env n u ts ss tf = .failure n e) ∧
    (∀ sel e, env.page = .ok sel →
      env.translate tf (title_text_of sel ts) = .error e →
      fetch_headline env n u ts ss tf = .failure n e) ∧
    (∀ sel s tt e, env.page = .ok sel → ss = some s →
      env.translate tf (title_text_of sel ts) = .ok tt →
      subtitle_text_of sel s ≠ "" →
      env.translate tf (subtitle_text_of sel s) = .error e →
      fetch_headline env n u ts ss tf = .failure n e) := by
  refine ⟨?_, ?_, ?_, ?_, ?_⟩
  · have hn := fetch_headline_site_name env n u ts ss tf
    cases hr : fetch_headline env n u ts ss tf with
    | success m t st =>
      rw [hr] at hn
      simp only [HeadlineResult.site_name_of] at hn
      subst hn
      exact Or.inl ⟨t, st, rfl⟩
    | failure m e =>
      rw [hr] at hn
      simp only [HeadlineResult.site_name_of] at hn
      subst hn
      exact Or.inr ⟨e, rfl⟩
  · rintro ⟨⟨t, st, h1⟩, ⟨e, h2⟩⟩
    rw [h1] at h2
    exact HeadlineResult.noConfusion h2
  · intro e he
    unfold fetch_headline
    rw [he]
  · intro sel e hp ht
    unfold fetch_headline
    rw [hp]
    dsimp only
    rw [ht]
  · intro sel s tt e hp hss ht hne hsube
    subst hss
    unfold fetch_headline
    rw [hp]
    dsimp only
    rw [ht]
    dsimp only
    rw [if_neg hne, hsube]

/-- A failing page fetch, used to witness `headline_exactly_one_variant`. -/
def env_page_down : FetchEnv :=
  ⟨.error "boom", fun _ s => .ok s⟩

/-- A page with a title element but a translator that always raises. -/
def env_translate_down : FetchEnv :=
  ⟨.ok (fun _ => some "T"), fun _ _ => .error "no translation"⟩

/-- A page whose title element reads "T" and whose other elements read
"S", with a translator that raises exactly on "S" (the subtitle). -/
def env_sub_translate_down : FetchEnv :=
  ⟨.ok (fun q => if q = "h1" then some "T" else some "S"),
   fun _ s => if s = "S" then .error "sub boom" else .ok s⟩

/--
Witness for `headline_exactly_one_variant`: each of the three
exception sites — page fetch, title translation, subtitle translation
— concretely converts to the Failure variant, and the dichotomy holds
at the failing page fetch.
-/
theorem headline_exactly_one_variant_witness :
    fetch_headline env_page_down "X" "u" "h1" none "en" =
      .failure "X" "boom" ∧
    fetch_headline env_translate_down "X" "u" "h1" none "en" =
      .failure "X" "no translation" ∧
    fetch_headline env_sub_translate_down "X" "u" "h1" (some "p") "en" =
      .failure "X" "sub boom" ∧
    ((∃ t st, fetch_headline env_page_down "X" "u" "h1" none "en" =
        .success "X" t st) ∨
      (∃ e, fetch_headline env_page_down "X" "u" "h1" none "en" =
        .failure "X" e)) ∧
    ¬((∃ t st, fetch_headline env_page_down "X" "u" "h1" none "en" =
        .success "X" t st) ∧
      (∃ e, fetch_headline env_page_down "X" "u" "h1" none "en" =
        .failure "X" e)) := by
  have h1 := headline_exactly_one_variant env_page_down "X" "u" "h1" none "en"
  have h2 := headline_exactly_one_variant env_translate_down "X" "u" "h1"
    none "en"
  have h3 := headline_exactly_one_variant env_sub_translate_down "X" "u" "h1"
    (some "p") "en"
  refine ⟨h1.2.2.1 "boom" rfl,
    h2.2.2.2.1 (fun _ => some "T") "no translation" rfl rfl,
    h3.2.2.2.2 (fun q => if q = "h1" then some "T" else some "S") "p" "T"
      "sub boom" rfl rfl rfl (by decide) rfl,
    h1.1, h1.2.1⟩

/-- An environment whose page has no matching elements and whose
translator appends "!" to its input. -/
def env_exclaim : FetchEnv :=
  ⟨.ok (fun _ => none), fun _ s => .ok (s ++ "!")⟩

/--
C7 counterexample: the fetcher translates the substituted placeholder,
so the resulting title field is the translator's output on it, not the
placeholder itself.  With a page lacking any title element and a
translator that appends "!", the call succeeds but its title field
differs from the fixed placeholder string.
-/
theorem title_not_placeholder_counterexample :
    env_exclaim.page = .ok (fun _ => none) ∧
    fetch_headline env_exclaim "X" "u" "h1" none "en" =
      .success "X" (title_placeholder ++ "!") none ∧
    title_placeholder ++ "!" ≠ title_placeholder := by
  refine ⟨rfl, rfl, by decide⟩

/--
C7 (amended): for every site whose fetched page has no element matching
the title selector, the title text substituted before translation is
the fixed placeholder "Título não encontrado", no exception is raised
by the substitution, and the call's title field is the translator's
output on that placeholder whenever it returns Success (it equals the
placeholder itself exactly when the translator returns it unchanged).
-/
theorem missing_title_uses_placeholder (env : FetchEnv)
    (sel : String → Option String) (n u ts tf tt : String)
    (ss : Option String) (hp : env.page = .ok sel) (hns : sel ts = none)
    (htr : env.translate tf title_placeholder = .ok tt) :
    title_text_of sel ts = title_placeholder ∧
    ((∃ st, fetch_headline env n u ts ss tf = .success n tt st) ∨
      (∃ e, fetch_headline env n u ts ss tf = .failure n e)) := by
  have htt : title_text_of sel ts = title_placeholder := by
    simp [title_text_of, hns]
  refine ⟨htt, ?_⟩
  unfold fetch_headline
  rw [hp]
  dsimp only
  rw [htt, htr]
  cases ss with
  | none => exact Or.inl ⟨none, rfl⟩
  | some s =>
    dsimp only
    by_cases hs : subtitle_text_of sel s = ""
    · rw [if_pos hs]
      exact Or.inl ⟨none, rfl⟩
    · rw [if_neg hs]
      cases henv : env.translate tf (subtitle_text_of sel s) with
      | error e => exact Or.inr ⟨e, rfl⟩
      | ok t2 => exact Or.inl ⟨some t2, rfl⟩

/-- Environment for the `missing_title_uses_placeholder` witness: no
matching elements, identity translator. -/
def env_no_title : FetchEnv :=
  ⟨.ok (fun _ => none), fun _ s => .ok s⟩

/-- Witness for `missing_title_uses_placeholder` with the identity
translator: the title field is the placeholder itself. -/
theorem missing_title_uses_placeholder_witness :
    title_text_of (fun _ => none) "h1" = title_placeholder ∧
    ((∃ st, fetch_headline env_no_title "X" "u" "h1" none "en" =
        .success "X" title_placeholder st) ∨
      (∃ e, fetch_headline env_no_title "X" "u" "h1" none "en" =
        .failure "X" e)) :=
  missing_title_uses_placeholder env_no_title (fun _ => none) "X" "u" "h1"
    "en" title_placeholder none rfl rfl rfl

/--
C8: for every site descriptor carrying a subtitle selector whose
matching element is missing or whose extracted text is empty, the call
returns Success with no subtitle translation — no failure, no
placeholder — provided the page fetch and the title translation
themselves succeed.
-/
theorem missing_subtitle_no_translation (env : FetchEnv)
    (sel : String → Option String) (n u ts s tf tt : String)
    (hp : env.page = .ok sel)
    (hsub : sel s = none ∨ sel s = some "")
    (htr : env.translate tf (title_text_of sel ts) = .ok tt) :
    fetch_headline env n u ts (some s) tf = .success n tt none := by
  unfold fetch_headline
  rw [hp]
  dsimp only
  rw [htr]
  dsimp only
  rcases hsub with h | h <;> simp [subtitle_text_of, h]

/-- Environment for the `missing_subtitle_no_translation` witness: a
title element exists, the subtitle selector matches nothing. -/
def env_no_subtitle : FetchEnv :=
  ⟨.ok (fun q => if q = "h1" then some "T" else none), fun _ s => .ok s⟩

/-- Witness for `missing_subtitle_no_translation`: subtitle selector
"p" matches nothing, so the call succeeds with no subtitle. -/
theorem missing_subtitle_no_translation_witness :
    fetch_headline env_no_subtitle "X" "u" "h1" (some "p") "en" =
      .success "X" "T" none :=
  missing_subtitle_no_translation env_no_subtitle
    (fun q => if q = "h1" then some "T" else none) "X" "u" "h1" "p" "en" "T"
    rfl (Or.inl (by decide)) rfl

/-! ## Theorems: Parallel Headline Orchestrator -/

/-- Position `i` of the orchestrator's output is the Headline Fetcher's
result for `sites[i]` under that task's own environment. -/
theorem run_headlines_getElem? (envs : ℕ → FetchEnv)
    (sites : List SiteDescriptor) (i : ℕ) :
    (run_headlines envs sites)[i]? = (sites[i]?).map fun s =>
      fetch_headline (envs i) s.name s.url s.title_selector
        s.subtitle_selector s.translate_from := by
  unfold run_headlines
  rw [List.getElem?_map, List.getElem?_enum]
  cases sites[i]? <;> rfl

/--
C1: for every batch of N site descriptors, the orchestrator's output
has length N and `output[i]` is the Headline Fetcher's result for
`site[i]` (positional correspondence, independent of any completion
order, since each entry is a function of its own index alone); and
replacing site k's fetch outcome — its task environment — with
anything, in particular a failing one, leaves every output at a
position other than k unchanged.
-/
theorem orchestrator_positional (envs envs' : ℕ → FetchEnv)
    (sites : List SiteDescriptor) (k : ℕ) :
    (run_headlines envs sites).length = sites.length ∧
    (∀ i s, sites[i]? = some s →
      (run_headlines envs sites)[i]? = some (fetch_headline (envs i) s.name
        s.url s.title_selector s.subtitle_selector s.translate_from)) ∧
    ((∀ j, j ≠ k → envs' j = envs j) →
      ∀ i, i ≠ k →
        (run_headlines envs' sites)[i]? = (run_headlines envs sites)[i]?) := by
  refine ⟨?_, ?_, ?_⟩
  · unfold run_headlines
    rw [List.length_map, List.enum_length]
  · intro i s hs
    rw [run_headlines_getElem?, hs]
    rfl
  · intro hagree i hik
    rw [run_headlines_getElem?, run_headlines_getElem?, hagree i hik]

/-- First witness site. -/
def site_A : SiteDescriptor := ⟨"A", "uA", "h1", none, "en"⟩

/-- Second witness site. -/
def site_B : SiteDescriptor := ⟨"B", "uB", "h2", some "p", "es"⟩

/-- A batch environment in which every task succeeds. -/
def envs_ok : ℕ → FetchEnv :=
  fun _ => ⟨.ok (fun _ => some "t"), fun _ s => .ok s⟩

/-- `envs_ok` with task 1's outcome replaced by a network failure. -/
def envs_fail1 : ℕ → FetchEnv :=
  fun i => if i = 1 then ⟨.error "timeout", fun _ s => .ok s⟩ else envs_ok i

/--
Witness for `orchestrator_positional`: two sites, the second task's
outcome replaced by a timeout failure; the batch keeps its length, the
failure lands at position 1, and position 0 is unaffected.
-/
theorem orchestrator_positional_witness :
    (run_headlines envs_ok [site_A, site_B]).length = 2 ∧
    (run_headlines envs_fail1 [site_A, site_B])[1]? =
      some (.failure "B" "timeout") ∧
    (run_headlines envs_fail1 [site_A, site_B])[0]? =
      (run_headlines envs_ok [site_A, site_B])[0]? := by
  have h := orchestrator_positional envs_ok envs_fail1 [site_A, site_B] 1
  refine ⟨h.1, rfl, ?_⟩
  exact h.2.2 (fun j hj => by simp [envs_fail1, hj]) 0 (by decide)

/-! ## Theorems: Series Fetcher and chart display -/

/-- A provider with one row of data for USDBRL=X and an empty table for
every other ticker. -/
def provider_B_empty : String → CloseSeries :=
  fun t => if t = "USDBRL=X" then [(0, 5)] else []

/--
C2: the download step does silently drop the symbol whose series is
empty, but the page then relabels the surviving columns with one label
per *requested* symbol (line 131), so for requested symbols
[USDBRL=X, USDARS=X] with the second empty the relabel raises a length
mismatch and the page shows a download error — not a one-column table
bearing the first symbol's label, as the claim states.
-/
theorem series_partial_empty_shows_error :
    download_currency_data provider_B_empty ["USDBRL=X", "USDARS=X"] =
      [("USDBRL=X", [(0, 5)])] ∧
    display_currency_data provider_B_empty ["USDBRL=X", "USDARS=X"] =
      .fetch_error "Length mismatch" ∧
    display_currency_data provider_B_empty ["USDBRL=X", "USDARS=X"] ≠
      .shown [("Real (BRL)", [(0, 5)])] := by
  refine ⟨by decide, by decide, by decide⟩

end Cotacao
